import Mathlib

/-!
Shallow embedding of the fog-of-war subsystem (`src/core/src/fow.rs`) of the
zoc game. Hex-grid FoV primitives (`fov`, `simple_fov`), the hex `distance`
function and the game-state container are external collaborators of this file
in the source; they are modelled as parameters (`FovPrims`, `GameState`).
Machine integers (`i32` ranges and distances, all non-negative in the game)
are modelled as `Nat`; map coordinates as `Int` pairs.
-/

namespace Zoc

/-- Visibility level of a tile. Mirrors `enum TileVisibility` in fow.rs
(the commented-out `Bad` variant is omitted there too). The derived Rust
`PartialOrd` orders declaration order: `No < Normal < Excellent`. -/
inductive TileVisibility where
  | No
  | Normal
  | Excellent
deriving DecidableEq

/-- `impl Default for TileVisibility` in fow.rs returns `No`. -/
instance : Inhabited TileVisibility :=
  ⟨TileVisibility.No⟩

/-- Numeric rank of a visibility value, realising the derived order. -/
def TileVisibility.toNat : TileVisibility → Nat
  | .No => 0
  | .Normal => 1
  | .Excellent => 2

/-- Strict comparison of visibility values (Rust `vis > *tile` test). -/
def TileVisibility.blt (a b : TileVisibility) : Bool :=
  decide (a.toNat < b.toNat)

/-- Non-strict comparison of visibility values. -/
def TileVisibility.ble (a b : TileVisibility) : Bool :=
  decide (a.toNat ≤ b.toNat)

/-- Join (max) in the three-valued lattice; this is exactly the update
`if vis > *tile \x7b *tile = vis \x7d` performed by `fov_unit`. -/
def TileVisibility.join (a b : TileVisibility) : TileVisibility :=
  if a.blt b then b else a

/-- Rectangular map dimensions (`types::Size2`). -/
structure Size2 where
  x : Int
  y : Int
deriving DecidableEq

/-- Hex coordinate on the map grid (`MapPos`). -/
structure MapPos where
  x : Int
  y : Int
deriving DecidableEq

/-- `MapPos` plus a sub-tile slot (`ExactPos`). -/
structure ExactPos where
  map_pos : MapPos
  slot_id : Nat
deriving DecidableEq

/-- Whether a position lies inside a grid of the given dimensions. -/
def inBounds (s : Size2) (p : MapPos) : Bool :=
  decide (0 ≤ p.x) && decide (p.x < s.x) && decide (0 ≤ p.y) && decide (p.y < s.y)

/-- The list of in-bounds positions of a grid, as enumerated by
`Map::get_iter`. -/
def getIterList (s : Size2) : List MapPos :=
  (List.range s.x.toNat).flatMap (fun (i : Nat) =>
    (List.range s.y.toNat).map (fun (j : Nat) => ⟨(i : Int), (j : Int)⟩))

/-- Generic grid container (`map::Map<T>`): a size together with the tile
contents. -/
structure Map (T : Type) where
  size : Size2
  tiles : MapPos → T

/-- `Map::new`: every tile holds the default value. -/
def Map.new (T : Type) [Inhabited T] (s : Size2) : Map T :=
  ⟨s, fun _ => default⟩

/-- `Map::tile`. -/
def Map.tile {T : Type} (m : Map T) (p : MapPos) : T :=
  m.tiles p

/-- Writing through `Map::tile_mut`. -/
def Map.set {T : Type} (m : Map T) (p : MapPos) (v : T) : Map T :=
  ⟨m.size, fun q => if q = p then v else m.tiles q⟩

/-- `Map::get_iter`. -/
def Map.get_iter {T : Type} (m : Map T) : List MapPos :=
  getIterList m.size

/-- Terrain of a tile (`map::Terrain`). -/
inductive Terrain where
  | City
  | Trees
  | Plain
  | Water
deriving DecidableEq

/-- Class of an object occupying a tile (`ObjectClass`). -/
inductive ObjectClass where
  | Building
  | Smoke
  | Road
  | ReinforcementSector
deriving DecidableEq

/-- An object occupying a tile; only its class matters to the FoW. The Rust
field is called `class`, which is a reserved word here. -/
structure Obj where
  cls : ObjectClass
deriving DecidableEq

/-- A unit (`unit::Unit`), restricted to the fields the FoW reads. -/
structure Unit where
  pos : ExactPos
  type_id : Nat
  player_id : Nat
  is_alive : Bool
  is_loaded : Bool
deriving DecidableEq

/-- A unit type (`unit::UnitType`), restricted to the fields the FoW reads. -/
structure UnitType where
  los_range : Nat
  cover_los_range : Nat
  is_air : Bool
  is_infantry : Bool
deriving DecidableEq

/-- The unit-type database (`db::Db`): resolves a type id. -/
def Db : Type := Nat → UnitType

/-- `Db::unit_type`. -/
def Db.unit_type (db : Db) (type_id : Nat) : UnitType :=
  db type_id

/-- The game-state interface (`game_state::GameState`) as consumed by the
FoW: terrain map, unit registry and object registry, all read-only. -/
structure GameState where
  map : Map Terrain
  units : List Unit
  unit : Nat → Unit
  objects_at : MapPos → List Obj

/-- The external hex-grid helpers imported by fow.rs: `map::distance` and
the two FoV primitives `fov::fov` (terrain-aware) and `fov::simple_fov`
(unobstructed disc), the latter two reified as the list of positions they
hand to the visitor callback. -/
structure FovPrims where
  distance : MapPos → MapPos → Nat
  fov : GameState → MapPos → Nat → List MapPos
  simple_fov : GameState → MapPos → Nat → List MapPos

/-- `calc_visibility` (fow.rs:51-79): distance gates first, then terrain
initialisation, then object demotion. -/
def calc_visibility (prims : FovPrims) (state : GameState) (unit_type : UnitType)
    (origin : MapPos) (pos : MapPos) : TileVisibility :=
  let dist := prims.distance origin pos
  if dist > unit_type.los_range then
    TileVisibility.No
  else if dist ≤ unit_type.cover_los_range then
    TileVisibility.Excellent
  else
    let vis := match state.map.tile pos with
      | Terrain.City | Terrain.Trees => TileVisibility.Normal
      | Terrain.Plain | Terrain.Water => TileVisibility.Excellent
    (state.objects_at pos).foldl
      (fun vis object =>
        match object.cls with
        | ObjectClass.Building | ObjectClass.Smoke => TileVisibility.Normal
        | ObjectClass.Road | ObjectClass.ReinforcementSector => vis)
      vis

/-- The positions visited by the FoV primitive that `fov_unit` selects:
`simple_fov` for air unit types, `fov` for ground unit types
(fow.rs:33-37). -/
def visited_positions (prims : FovPrims) (db : Db) (state : GameState)
    (unit : Unit) : List MapPos :=
  let unit_type := db.unit_type unit.type_id
  let f := if unit_type.is_air then prims.simple_fov else prims.fov
  f state unit.pos.map_pos unit_type.los_range

/-- `fov_unit` (fow.rs:23-49): sweep the selected FoV primitive and merge
`calc_visibility` into the map by pointwise join (the source precondition
`assert!(unit.is_alive)` becomes a hypothesis of the theorems below). -/
def fov_unit (prims : FovPrims) (db : Db) (state : GameState)
    (fow : Map TileVisibility) (unit : Unit) : Map TileVisibility :=
  let origin := unit.pos.map_pos
  let unit_type := db.unit_type unit.type_id
  (visited_positions prims db state unit).foldl
    (fun fw pos =>
      let vis := calc_visibility prims state unit_type origin pos
      if TileVisibility.blt (fw.tile pos) vis then fw.set pos vis else fw)
    fow

/-- Fog of war of one player (`struct Fow`). -/
structure Fow where
  map : Map TileVisibility
  player_id : Nat
  db : Db

/-- `Fow::new`. -/
def Fow.new (db : Db) (map_size : Size2) (player_id : Nat) : Fow :=
  ⟨Map.new TileVisibility map_size, player_id, db⟩

/-- `Fow::is_tile_visible`. -/
def Fow.is_tile_visible (fow : Fow) (pos : MapPos) : Bool :=
  match fow.map.tile pos with
  | TileVisibility.Excellent | TileVisibility.Normal => true
  | TileVisibility.No => false

/-- `Fow::check_terrain_visibility` (fow.rs:106-112). -/
def Fow.check_terrain_visibility (fow : Fow) (unit_type : UnitType)
    (pos : MapPos) : Bool :=
  match fow.map.tile pos with
  | TileVisibility.Excellent => true
  | TileVisibility.Normal => !unit_type.is_infantry
  | TileVisibility.No => false

/-- `Fow::is_visible` (fow.rs:114-137): loaded units are never visible; an
air unit is visible when any unit of another player has it within LOS
range, and otherwise the check falls through to
`check_terrain_visibility`; ground units go straight to that check. -/
def Fow.is_visible (prims : FovPrims) (fow : Fow) (state : GameState)
    (unit : Unit) (pos : ExactPos) : Bool :=
  if unit.is_loaded then
    false
  else
    let unit_type := fow.db.unit_type unit.type_id
    if unit_type.is_air &&
        state.units.any (fun enemy_unit =>
          enemy_unit.player_id != unit.player_id &&
          decide (prims.distance pos.map_pos enemy_unit.pos.map_pos ≤
            (fow.db.unit_type enemy_unit.type_id).los_range)) then
      true
    else
      fow.check_terrain_visibility unit_type pos.map_pos

/-- `Fow::clear` (fow.rs:139-143): set every enumerated tile to `No`. -/
def Fow.clear (fow : Fow) : Fow :=
  { fow with
    map := fow.map.get_iter.foldl
      (fun m pos => m.set pos TileVisibility.No) fow.map }

/-- `Fow::reset` (fow.rs:145-152): clear, then sweep every alive unit of
the owning player. -/
def Fow.reset (prims : FovPrims) (fow : Fow) (state : GameState) : Fow :=
  let cleared := fow.clear
  { cleared with
    map := state.units.foldl
      (fun m unit =>
        if unit.player_id == fow.player_id && unit.is_alive then
          fov_unit prims fow.db state m unit
        else m)
      cleared.map }

/-- The payload of `CoreEvent::CreateUnit` and `CoreEvent::UnloadUnit`
(`unit_info`), restricted to the fields the FoW reads. -/
structure UnitInfo where
  unit_id : Nat
  player_id : Nat
deriving DecidableEq

/-- The payload of `CoreEvent::AttackUnit` (`attack_info`), restricted to
the fields the FoW reads. -/
structure AttackInfo where
  attacker_id : Option Nat
  is_ambush : Bool
deriving DecidableEq

/-- `CoreEvent`, restricted per variant to the fields the FoW reads. -/
inductive CoreEvent where
  | Move (unit_id : Nat)
  | EndTurn (old_id : Nat) (new_id : Nat)
  | CreateUnit (unit_info : UnitInfo)
  | AttackUnit (attack_info : AttackInfo)
  | UnloadUnit (unit_info : UnitInfo)
  | Attach
  | Detach (transporter_id : Nat)
  | ShowUnit
  | HideUnit
  | LoadUnit
  | SetReactionFireMode
  | SectorOwnerChanged
  | Smoke
  | RemoveSmoke
  | VictoryPoint

/-- `Fow::apply_event` (fow.rs:154-208). -/
def Fow.apply_event (prims : FovPrims) (fow : Fow) (state : GameState)
    (event : CoreEvent) : Fow :=
  match event with
  | CoreEvent.Move unit_id =>
      let unit := state.unit unit_id
      if unit.player_id == fow.player_id then
        { fow with map := fov_unit prims fow.db state fow.map unit }
      else fow
  | CoreEvent.EndTurn _ new_id =>
      if fow.player_id == new_id then fow.reset prims state else fow
  | CoreEvent.CreateUnit unit_info =>
      let unit := state.unit unit_info.unit_id
      if fow.player_id == unit_info.player_id then
        { fow with map := fov_unit prims fow.db state fow.map unit }
      else fow
  | CoreEvent.AttackUnit attack_info =>
      match attack_info.attacker_id with
      | some attacker_id =>
          if !attack_info.is_ambush then
            let pos := (state.unit attacker_id).pos
            { fow with map := fow.map.set pos.map_pos TileVisibility.Excellent }
          else fow
      | none => fow
  | CoreEvent.UnloadUnit unit_info =>
      if fow.player_id == unit_info.player_id then
        let unit := state.unit unit_info.unit_id
        { fow with map := fov_unit prims fow.db state fow.map unit }
      else fow
  | CoreEvent.Detach transporter_id =>
      let transporter := state.unit transporter_id
      if fow.player_id == transporter.player_id then
        { fow with map := fov_unit prims fow.db state fow.map transporter }
      else fow
  | CoreEvent.ShowUnit | CoreEvent.HideUnit | CoreEvent.LoadUnit
  | CoreEvent.Attach | CoreEvent.SetReactionFireMode
  | CoreEvent.SectorOwnerChanged | CoreEvent.Smoke
  | CoreEvent.RemoveSmoke | CoreEvent.VictoryPoint => fow

/-! Concrete sample data used to instantiate the theorems below on closed
inputs: a 10×10 all-plain world with a ground vehicle, an infantryman's
worth of unit types, an air unit, and a dead loaded enemy spotter. -/

/-- Sample unit type: ground vehicle, `los_range` 5, `cover_los_range` 1. -/
def demoVehicleType : UnitType :=
  { los_range := 5, cover_los_range := 1, is_air := false, is_infantry := false }

/-- Sample unit type: infantry, `los_range` 3, `cover_los_range` 1. -/
def demoInfantryType : UnitType :=
  { los_range := 3, cover_los_range := 1, is_air := false, is_infantry := true }

/-- Sample unit type: air, `los_range` 4, `cover_los_range` 1. -/
def demoAirType : UnitType :=
  { los_range := 4, cover_los_range := 1, is_air := true, is_infantry := false }

/-- Sample database: type 0 is the vehicle, type 1 the infantry, the rest air. -/
def demoDb : Db := fun type_id =>
  if type_id == 0 then demoVehicleType
  else if type_id == 1 then demoInfantryType
  else demoAirType

/-- Sample external primitives: rectilinear distance, a ground FoV visiting
the origin and its east neighbour, an air FoV visiting only the origin. -/
def demoPrims : FovPrims :=
  { distance := fun a b => ((a.x - b.x).natAbs + (a.y - b.y).natAbs)
    fov := fun _ origin _ => [origin, ⟨origin.x + 1, origin.y⟩]
    simple_fov := fun _ origin _ => [origin] }

/-- Sample unit: player 0 vehicle at (0,0), alive, unloaded. -/
def demoVehicle : Unit :=
  { pos := ⟨⟨0, 0⟩, 0⟩, type_id := 0, player_id := 0,
    is_alive := true, is_loaded := false }

/-- Sample unit: player 0 vehicle at (2,2), alive but loaded. -/
def demoLoadedUnit : Unit :=
  { pos := ⟨⟨2, 2⟩, 0⟩, type_id := 0, player_id := 0,
    is_alive := true, is_loaded := true }

/-- Sample unit: player 0 air unit at (5,5), alive, unloaded. -/
def demoAirUnit : Unit :=
  { pos := ⟨⟨5, 5⟩, 0⟩, type_id := 2, player_id := 0,
    is_alive := true, is_loaded := false }

/-- Sample unit: player 1 vehicle at (5,4), dead and loaded. -/
def demoDeadLoadedSpotter : Unit :=
  { pos := ⟨⟨5, 4⟩, 0⟩, type_id := 0, player_id := 1,
    is_alive := false, is_loaded := true }

/-- Sample state: 10×10 map, plain except trees at (3,0), no objects. -/
def demoState : GameState :=
  { map := ⟨⟨10, 10⟩, fun p => if p == ⟨3, 0⟩ then Terrain.Trees else Terrain.Plain⟩
    units := [demoVehicle, demoAirUnit, demoDeadLoadedSpotter]
    unit := fun unit_id =>
      if unit_id == 0 then demoVehicle
      else if unit_id == 2 then demoAirUnit
      else demoDeadLoadedSpotter
    objects_at := fun _ => [] }

/-- Sample FoW for player 0 over a 10×10 map, all `No`. -/
def demoFow : Fow :=
  { map := ⟨⟨10, 10⟩, fun _ => TileVisibility.No⟩, player_id := 0, db := demoDb }

/-- Sample FoW for player 0 whose map holds `Normal` at (2,0), `No` elsewhere. -/
def demoFowNormal : Fow :=
  { map := ⟨⟨10, 10⟩, fun p => if p == ⟨2, 0⟩ then TileVisibility.Normal
      else TileVisibility.No⟩,
    player_id := 0, db := demoDb }

/-- Isolated-world state for the air fall-through scenario: the air unit is
the only unit on the map, so no other player's unit can spot it. -/
def soloAirState : GameState :=
  { map := ⟨⟨10, 10⟩, fun _ => Terrain.Plain⟩
    units := [demoAirUnit]
    unit := fun _ => demoAirUnit
    objects_at := fun _ => [] }

/-- FoW for player 1 whose stored map is `Excellent` everywhere. -/
def excellentFow : Fow :=
  { map := ⟨⟨10, 10⟩, fun _ => TileVisibility.Excellent⟩,
    player_id := 1, db := demoDb }

/-- Join of one unit's contribution at one tile: `calc_visibility` where the
selected FoV primitive visits the tile, `No` elsewhere. -/
def unit_contrib (prims : FovPrims) (db : Db) (state : GameState) (unit : Unit)
    (p : MapPos) : TileVisibility :=
  if p ∈ visited_positions prims db state unit then
    calc_visibility prims state (db.unit_type unit.type_id) unit.pos.map_pos p
  else TileVisibility.No

/-- One unit's contribution at one tile during `Fow::reset`: as
`unit_contrib`, but gated by the owning-player-and-alive filter. -/
def reset_contrib (prims : FovPrims) (db : Db) (state : GameState)
    (player_id : Nat) (unit : Unit) (p : MapPos) : TileVisibility :=
  if unit.player_id == player_id && unit.is_alive then
    unit_contrib prims db state unit p
  else TileVisibility.No

/-- Total contribution of a unit list at one tile during `Fow::reset`. -/
def reset_join (prims : FovPrims) (db : Db) (state : GameState)
    (player_id : Nat) (units : List Unit) (p : MapPos) : TileVisibility :=
  units.foldl
    (fun a unit => TileVisibility.join a (reset_contrib prims db state player_id unit p))
    TileVisibility.No

/-! Lattice lemmas for the three-valued visibility order. -/

theorem TileVisibility.join_no_left (a : TileVisibility) :
    TileVisibility.join TileVisibility.No a = a := by
  cases a <;> rfl

theorem TileVisibility.join_no_right (a : TileVisibility) :
    TileVisibility.join a TileVisibility.No = a := by
  cases a <;> rfl

theorem TileVisibility.join_assoc (a b c : TileVisibility) :
    TileVisibility.join (TileVisibility.join a b) c =
    TileVisibility.join a (TileVisibility.join b c) := by
  cases a <;> cases b <;> cases c <;> rfl

theorem TileVisibility.join_idem (a : TileVisibility) :
    TileVisibility.join a a = a := by
  cases a <;> rfl

theorem TileVisibility.join_join_self (a b : TileVisibility) :
    TileVisibility.join (TileVisibility.join a b) b = TileVisibility.join a b := by
  cases a <;> cases b <;> rfl

theorem TileVisibility.ble_join_left (a b : TileVisibility) :
    TileVisibility.ble a (TileVisibility.join a b) = true := by
  cases a <;> cases b <;> rfl

theorem TileVisibility.ble_excellent (a : TileVisibility) :
    TileVisibility.ble a TileVisibility.Excellent = true := by
  cases a <;> rfl

/-! Pointwise characterisation of the folds in fow.rs. -/

theorem Map.set_tiles {T : Type} (m : Map T) (q : MapPos) (v : T) (p : MapPos) :
    (m.set q v).tiles p = if p = q then v else m.tiles p := rfl

theorem Map.set_size {T : Type} (m : Map T) (q : MapPos) (v : T) :
    (m.set q v).size = m.size := rfl

/-- The visitor body of `fov_unit`, at one tile: each visited position is
joined with its `calc_visibility` value, other tiles are untouched. -/
theorem foldl_fov_step_tiles (v : MapPos → TileVisibility) (L : List MapPos)
    (m : Map TileVisibility) (p : MapPos) :
    (L.foldl
      (fun fw pos => if TileVisibility.blt (fw.tile pos) (v pos)
        then fw.set pos (v pos) else fw) m).tiles p =
    TileVisibility.join (m.tiles p) (if p ∈ L then v p else TileVisibility.No) := by
  induction L generalizing m with
  | nil => simp [TileVisibility.join_no_right]
  | cons q L ih =>
      rw [List.foldl_cons, ih]
      have hstep : (if TileVisibility.blt (m.tile q) (v q)
          then m.set q (v q) else m).tiles p =
          if p = q then TileVisibility.join (m.tiles p) (v q) else m.tiles p := by
        by_cases hpq : p = q
        · subst hpq
          simp only [Map.tile, TileVisibility.join]
          by_cases h : TileVisibility.blt (m.tiles p) (v p) <;>
            simp [h, Map.set_tiles]
        · by_cases h : TileVisibility.blt (m.tile q) (v q) <;>
            simp [h, Map.set_tiles, hpq]
      rw [hstep]
      by_cases hpq : p = q
      · subst hpq
        simp only [List.mem_cons, true_or, if_pos, or_true]
        by_cases hm : p ∈ L
        · simp [hm, TileVisibility.join_assoc, TileVisibility.join_idem]
        · simp [hm, TileVisibility.join_no_right,
            TileVisibility.join_join_self]
      · simp [if_neg hpq, List.mem_cons, hpq]

/-- Folding the visitor body preserves the map size. -/
theorem foldl_fov_step_size (v : MapPos → TileVisibility) (L : List MapPos)
    (m : Map TileVisibility) :
    (L.foldl
      (fun fw pos => if TileVisibility.blt (fw.tile pos) (v pos)
        then fw.set pos (v pos) else fw) m).size = m.size := by
  induction L generalizing m with
  | nil => rfl
  | cons q L ih =>
      rw [List.foldl_cons, ih]
      by_cases h : TileVisibility.blt (m.tile q) (v q) <;> simp [h, Map.set_size]

/-- Pointwise characterisation of `fov_unit`: every tile becomes the join
of its old value and the unit's contribution there. -/
theorem fov_unit_tiles (prims : FovPrims) (db : Db) (state : GameState)
    (m : Map TileVisibility) (u : Unit) (p : MapPos) :
    (fov_unit prims db state m u).tiles p =
    TileVisibility.join (m.tiles p) (unit_contrib prims db state u p) := by
  unfold fov_unit unit_contrib
  exact foldl_fov_step_tiles _ _ m p

/-- `fov_unit` preserves the map size. -/
theorem fov_unit_size (prims : FovPrims) (db : Db) (state : GameState)
    (m : Map TileVisibility) (u : Unit) :
    (fov_unit prims db state m u).size = m.size := by
  unfold fov_unit
  exact foldl_fov_step_size _ _ m

/-- Shifting the accumulator out of a fold of joins. -/
theorem foldl_join_shift {α : Type} (g : α → TileVisibility) (L : List α)
    (a : TileVisibility) :
    L.foldl (fun b x => TileVisibility.join b (g x)) a =
    TileVisibility.join a
      (L.foldl (fun b x => TileVisibility.join b (g x)) TileVisibility.No) := by
  induction L generalizing a with
  | nil => simp [TileVisibility.join_no_right]
  | cons x L ih =>
      rw [List.foldl_cons, List.foldl_cons, ih (TileVisibility.join a (g x)),
        TileVisibility.join_no_left, ih (g x), TileVisibility.join_assoc]

/-- Pointwise characterisation of the unit sweep inside `Fow::reset`: every
tile becomes the join of its old value and the filtered contributions of
the unit list. -/
theorem foldl_units_tiles (prims : FovPrims) (db : Db) (state : GameState)
    (player_id : Nat) (L : List Unit) (m : Map TileVisibility) (p : MapPos) :
    (L.foldl
      (fun m unit =>
        if unit.player_id == player_id && unit.is_alive then
          fov_unit prims db state m unit
        else m) m).tiles p =
    TileVisibility.join (m.tiles p) (reset_join prims db state player_id L p) := by
  induction L generalizing m with
  | nil => simp [reset_join, TileVisibility.join_no_right]
  | cons u L ih =>
      rw [List.foldl_cons, ih]
      have hstep : (if u.player_id == player_id && u.is_alive then
          fov_unit prims db state m u else m).tiles p =
          TileVisibility.join (m.tiles p)
            (reset_contrib prims db state player_id u p) := by
        unfold reset_contrib
        by_cases h : u.player_id == player_id && u.is_alive
        · simp only [h, if_pos, if_true]
          exact fov_unit_tiles prims db state m u p
        · simp [h, TileVisibility.join_no_right]
      rw [hstep, TileVisibility.join_assoc]
      unfold reset_join
      rw [List.foldl_cons, TileVisibility.join_no_left,
        foldl_join_shift (fun unit =>
          reset_contrib prims db state player_id unit p) L
          (reset_contrib prims db state player_id u p)]

/-- The unit sweep inside `Fow::reset` preserves the map size. -/
theorem foldl_units_size (prims : FovPrims) (db : Db) (state : GameState)
    (player_id : Nat) (L : List Unit) (m : Map TileVisibility) :
    (L.foldl
      (fun m unit =>
        if unit.player_id == player_id && unit.is_alive then
          fov_unit prims db state m unit
        else m) m).size = m.size := by
  induction L generalizing m with
  | nil => rfl
  | cons u L ih =>
      rw [List.foldl_cons, ih]
      by_cases h : u.player_id == player_id && u.is_alive <;>
        simp [h, fov_unit_size]

/-- Pointwise characterisation of the fold inside `Fow::clear`. -/
theorem foldl_clear_tiles (L : List MapPos) (m : Map TileVisibility) (p : MapPos) :
    (L.foldl (fun m pos => m.set pos TileVisibility.No) m).tiles p =
    if p ∈ L then TileVisibility.No else m.tiles p := by
  induction L generalizing m with
  | nil => simp
  | cons q L ih =>
      rw [List.foldl_cons, ih]
      by_cases hm : p ∈ L
      · simp [hm]
      · by_cases hpq : p = q <;> simp [hm, hpq, Map.set_tiles]

/-- The fold inside `Fow::clear` preserves the map size. -/
theorem foldl_clear_size (L : List MapPos) (m : Map TileVisibility) :
    (L.foldl (fun m pos => m.set pos TileVisibility.No) m).size = m.size := by
  induction L generalizing m with
  | nil => rfl
  | cons q L ih => rw [List.foldl_cons, ih, Map.set_size]

/-- `Fow::clear` leaves the player and database unchanged and resets every
enumerated tile. -/
theorem clear_tiles (fow : Fow) (p : MapPos) :
    fow.clear.map.tiles p =
    if p ∈ getIterList fow.map.size then TileVisibility.No
    else fow.map.tiles p := by
  unfold Fow.clear Map.get_iter
  exact foldl_clear_tiles _ fow.map p

theorem clear_size (fow : Fow) : fow.clear.map.size = fow.map.size := by
  unfold Fow.clear Map.get_iter
  exact foldl_clear_size _ fow.map

/-- Pointwise characterisation of `Fow::reset`. -/
theorem reset_tiles (prims : FovPrims) (fow : Fow) (state : GameState)
    (p : MapPos) :
    (fow.reset prims state).map.tiles p =
    TileVisibility.join
      (if p ∈ getIterList fow.map.size then TileVisibility.No
       else fow.map.tiles p)
      (reset_join prims fow.db state fow.player_id state.units p) := by
  unfold Fow.reset
  rw [foldl_units_tiles, clear_tiles]

theorem reset_size (prims : FovPrims) (fow : Fow) (state : GameState) :
    (fow.reset prims state).map.size = fow.map.size := by
  unfold Fow.reset
  rw [foldl_units_size, clear_size]

theorem reset_player_id (prims : FovPrims) (fow : Fow) (state : GameState) :
    (fow.reset prims state).player_id = fow.player_id := rfl

theorem reset_db (prims : FovPrims) (fow : Fow) (state : GameState) :
    (fow.reset prims state).db = fow.db := rfl

/-- Two maps with the same size and the same tiles are equal. -/
theorem Map.eq_of_size_tiles {T : Type} (m1 m2 : Map T) (hs : m1.size = m2.size)
    (ht : ∀ p, m1.tiles p = m2.tiles p) : m1 = m2 := by
  cases m1
  cases m2
  simp only [Map.mk.injEq]
  exact ⟨hs, funext ht⟩

/-- Two FoW instances with the same fields are equal. -/
theorem Fow.eq_of_fields (f1 f2 : Fow) (hm : f1.map = f2.map)
    (hp : f1.player_id = f2.player_id) (hd : f1.db = f2.db) : f1 = f2 := by
  cases f1
  cases f2
  simp only [Fow.mk.injEq]
  exact ⟨hm, hp, hd⟩

/-- Every in-bounds position is enumerated by `Map::get_iter`. -/
theorem mem_getIterList_of_inBounds (s : Size2) (p : MapPos)
    (h : inBounds s p = true) : p ∈ getIterList s := by
  unfold inBounds at h
  simp only [Bool.and_eq_true, decide_eq_true_eq] at h
  obtain ⟨⟨⟨hx0, hx1⟩, hy0⟩, hy1⟩ := h
  unfold getIterList
  have hx : p.x.toNat ∈ List.range s.x.toNat := List.mem_range.mpr (by omega)
  have hy : p.y.toNat ∈ List.range s.y.toNat := List.mem_range.mpr (by omega)
  have heq : (⟨(p.x.toNat : Int), (p.y.toNat : Int)⟩ : MapPos) = p := by
    have e1 : ((p.x.toNat : Int)) = p.x := Int.toNat_of_nonneg hx0
    have e2 : ((p.y.toNat : Int)) = p.y := Int.toNat_of_nonneg hy0
    rw [e1, e2]
  have hmem : p ∈ (List.range s.y.toNat).map
      (fun (j : Nat) => (⟨(p.x.toNat : Int), (j : Int)⟩ : MapPos)) :=
    List.mem_map.mpr ⟨p.y.toNat, hy, heq⟩
  exact List.mem_flatMap.mpr ⟨p.x.toNat, hx, hmem⟩

/-- The object loop of `calc_visibility`: the fold over the tile's objects
yields `Normal` when some object is a building or smoke, and leaves the
initial value otherwise. -/
theorem objects_foldl_eq (L : List Obj) (v : TileVisibility) :
    L.foldl
      (fun vis object =>
        match object.cls with
        | ObjectClass.Building | ObjectClass.Smoke => TileVisibility.Normal
        | ObjectClass.Road | ObjectClass.ReinforcementSector => vis) v =
    if L.any (fun object => object.cls == ObjectClass.Building ||
        object.cls == ObjectClass.Smoke) then TileVisibility.Normal else v := by
  induction L generalizing v with
  | nil => rfl
  | cons o L ih =>
      rw [List.foldl_cons, ih]
      cases h : o.cls <;> simp [List.any_cons, h]

/-- C1: `calc_visibility(state, unit_type, origin, target)` returns `No`
when the hex distance exceeds `los_range`; `Excellent` when the distance is
within `cover_los_range`; otherwise a value initialised from the target
tile's terrain (City/Trees give Normal, Plain/Water give Excellent) and
demoted to Normal when any object at the tile is a Building or Smoke,
Road and ReinforcementSector objects being ignored. -/
theorem calc_visibility_spec (prims : FovPrims) (state : GameState)
    (unit_type : UnitType) (origin pos : MapPos) :
    (prims.distance origin pos > unit_type.los_range →
      calc_visibility prims state unit_type origin pos = TileVisibility.No) ∧
    (prims.distance origin pos ≤ unit_type.los_range →
      prims.distance origin pos ≤ unit_type.cover_los_range →
      calc_visibility prims state unit_type origin pos = TileVisibility.Excellent) ∧
    (prims.distance origin pos ≤ unit_type.los_range →
      unit_type.cover_los_range < prims.distance origin pos →
      calc_visibility prims state unit_type origin pos =
        if (state.objects_at pos).any (fun object =>
            object.cls == ObjectClass.Building ||
            object.cls == ObjectClass.Smoke) then
          TileVisibility.Normal
        else
          match state.map.tile pos with
          | Terrain.City | Terrain.Trees => TileVisibility.Normal
          | Terrain.Plain | Terrain.Water => TileVisibility.Excellent) := by
  refine ⟨?_, ?_, ?_⟩
  · intro h
    simp only [calc_visibility]
    rw [if_pos h]
  · intro h1 h2
    simp only [calc_visibility]
    rw [if_neg (by omega), if_pos h2]
  · intro h1 h2
    simp only [calc_visibility]
    rw [if_neg (by omega), if_neg (by omega)]
    exact objects_foldl_eq _ _

/-- C1 witness: a vehicle three hexes from a trees tile with no objects on
it sees it as Normal. -/
theorem calc_visibility_spec_witness :
    calc_visibility demoPrims demoState demoVehicleType ⟨0, 0⟩ ⟨3, 0⟩ =
      TileVisibility.Normal := by
  have h := (calc_visibility_spec demoPrims demoState demoVehicleType
    ⟨0, 0⟩ ⟨3, 0⟩).2.2 (by decide) (by decide)
  rw [h]
  decide

/-- C2 counterexample: `soloAirState` holds no unit of any other player, yet
the unloaded air unit is reported visible because the air branch of
`is_visible` falls through to the stored FoW map, which holds `Excellent`
at the candidate position — so the tile-based map is not bypassed. -/
theorem is_visible_air_bypass_counterexample :
    (excellentFow.db.unit_type demoAirUnit.type_id).is_air = true ∧
    demoAirUnit.is_loaded = false ∧
    soloAirState.units.any
      (fun other => other.player_id != demoAirUnit.player_id) = false ∧
    Fow.is_visible demoPrims excellentFow soloAirState demoAirUnit
      demoAirUnit.pos = true := by
  decide

/-- C2 (amended): for an unloaded air unit, `is_visible` returns true iff
some unit of another player has the candidate position within its own
`los_range`, or the tile-based `check_terrain_visibility` fall-through
accepts the stored visibility at the candidate's map position. -/
theorem is_visible_air_spec (prims : FovPrims) (fow : Fow) (state : GameState)
    (unit : Unit) (pos : ExactPos)
    (hl : unit.is_loaded = false)
    (ha : (fow.db.unit_type unit.type_id).is_air = true) :
    Fow.is_visible prims fow state unit pos =
      (state.units.any (fun enemy_unit =>
        enemy_unit.player_id != unit.player_id &&
        decide (prims.distance pos.map_pos enemy_unit.pos.map_pos ≤
          (fow.db.unit_type enemy_unit.type_id).los_range))
       || fow.check_terrain_visibility (fow.db.unit_type unit.type_id)
            pos.map_pos) := by
  unfold Fow.is_visible
  cases hany : state.units.any (fun enemy_unit =>
      enemy_unit.player_id != unit.player_id &&
      decide (prims.distance pos.map_pos enemy_unit.pos.map_pos ≤
        (fow.db.unit_type enemy_unit.type_id).los_range)) <;>
    simp [hl, ha, hany]

/-- C2 witness: the amended rule evaluated in the isolated world — no
spotter, `Excellent` stored, so the fall-through yields true. -/
theorem is_visible_air_spec_witness :
    Fow.is_visible demoPrims excellentFow soloAirState demoAirUnit
      demoAirUnit.pos = true := by
  have h := is_visible_air_spec demoPrims excellentFow soloAirState demoAirUnit
    demoAirUnit.pos rfl rfl
  rw [h]
  decide

/-- C3: for an unloaded non-air unit, `is_visible` is decided by the stored
visibility at the candidate's map position: `Excellent` gives true,
`Normal` gives the negation of the candidate unit's own `is_infantry`
flag, `No` gives false. -/
theorem is_visible_ground_spec (prims : FovPrims) (fow : Fow)
    (state : GameState) (unit : Unit) (pos : ExactPos)
    (hl : unit.is_loaded = false)
    (ha : (fow.db.unit_type unit.type_id).is_air = false) :
    Fow.is_visible prims fow state unit pos =
      match fow.map.tile pos.map_pos with
      | TileVisibility.Excellent => true
      | TileVisibility.Normal => !(fow.db.unit_type unit.type_id).is_infantry
      | TileVisibility.No => false := by
  unfold Fow.is_visible Fow.check_terrain_visibility
  simp [hl, ha]

/-- C3 witness: a stored `Normal` tile and a non-infantry candidate give
true. -/
theorem is_visible_ground_spec_witness :
    Fow.is_visible demoPrims demoFowNormal demoState demoVehicle
      ⟨⟨2, 0⟩, 0⟩ = true := by
  have h := is_visible_ground_spec demoPrims demoFowNormal demoState
    demoVehicle ⟨⟨2, 0⟩, 0⟩ rfl rfl
  rw [h]
  decide

/-- C5: a loaded unit is never visible, whatever its type, the FoW map and
the other units. -/
theorem is_visible_loaded_spec (prims : FovPrims) (fow : Fow)
    (state : GameState) (unit : Unit) (pos : ExactPos)
    (h : unit.is_loaded = true) :
    Fow.is_visible prims fow state unit pos = false := by
  unfold Fow.is_visible
  simp [h]

/-- C5 witness: the loaded vehicle is invisible even on an all-`Excellent`
map. -/
theorem is_visible_loaded_spec_witness :
    Fow.is_visible demoPrims excellentFow demoState demoLoadedUnit
      demoLoadedUnit.pos = false :=
  is_visible_loaded_spec demoPrims excellentFow demoState demoLoadedUnit
    demoLoadedUnit.pos rfl

/-- C10: the proximity loop for air units filters only by player id — a
unit of another player whose `los_range` covers the candidate position
makes the air unit visible even when that unit is dead or loaded. -/
theorem is_visible_air_dead_spotter_spec (prims : FovPrims) (fow : Fow)
    (state : GameState) (unit : Unit) (pos : ExactPos) (other : Unit)
    (hl : unit.is_loaded = false)
    (ha : (fow.db.unit_type unit.type_id).is_air = true)
    (hmem : other ∈ state.units)
    (hpl : other.player_id ≠ unit.player_id)
    (hrange : prims.distance pos.map_pos other.pos.map_pos ≤
      (fow.db.unit_type other.type_id).los_range)
    (_hdl : other.is_alive = false ∨ other.is_loaded = true) :
    Fow.is_visible prims fow state unit pos = true := by
  unfold Fow.is_visible
  have hany : state.units.any (fun enemy_unit =>
      enemy_unit.player_id != unit.player_id &&
      decide (prims.distance pos.map_pos enemy_unit.pos.map_pos ≤
        (fow.db.unit_type enemy_unit.type_id).los_range)) = true :=
    List.any_eq_true.mpr ⟨other, hmem, by simp [hpl, hrange]⟩
  simp [hl, ha, hany]

/-- C10 witness: the dead, loaded enemy spotter one hex away still reveals
the air unit. -/
theorem is_visible_air_dead_spotter_spec_witness :
    Fow.is_visible demoPrims demoFow demoState demoAirUnit
      demoAirUnit.pos = true := by
  exact is_visible_air_dead_spotter_spec demoPrims demoFow demoState
    demoAirUnit demoAirUnit.pos demoDeadLoadedSpotter rfl rfl
    (by decide) (by decide) (by decide) (Or.inl rfl)

/-- C4: a non-ambush `AttackUnit` event with a known attacker sets the tile
at the attacker's map position to `Excellent` for any FoW instance (no
owning-player filter), never decreasing that tile's visibility; an absent
attacker or an ambush leaves the FoW unchanged. -/
theorem apply_event_attack_spec (prims : FovPrims) (fow : Fow)
    (state : GameState) (attack_info : AttackInfo) :
    (∀ attacker_id, attack_info.attacker_id = some attacker_id →
      attack_info.is_ambush = false →
      (Fow.apply_event prims fow state (CoreEvent.AttackUnit attack_info)).map =
        fow.map.set (state.unit attacker_id).pos.map_pos
          TileVisibility.Excellent ∧
      (Fow.apply_event prims fow state
          (CoreEvent.AttackUnit attack_info)).map.tile
        (state.unit attacker_id).pos.map_pos = TileVisibility.Excellent ∧
      TileVisibility.ble
        (fow.map.tile (state.unit attacker_id).pos.map_pos)
        ((Fow.apply_event prims fow state
            (CoreEvent.AttackUnit attack_info)).map.tile
          (state.unit attacker_id).pos.map_pos) = true) ∧
    (attack_info.attacker_id = none →
      Fow.apply_event prims fow state (CoreEvent.AttackUnit attack_info) = fow) ∧
    (attack_info.is_ambush = true →
      Fow.apply_event prims fow state (CoreEvent.AttackUnit attack_info) = fow) := by
  refine ⟨?_, ?_, ?_⟩
  · intro attacker_id hk hnb
    simp only [Fow.apply_event]
    rw [hk, hnb]
    refine ⟨rfl, ?_, ?_⟩
    · simp [Map.tile, Map.set]
    · simp [Map.tile, Map.set, TileVisibility.ble_excellent]
  · intro hk
    simp only [Fow.apply_event]
    rw [hk]
  · intro hnb
    simp only [Fow.apply_event]
    cases hk : attack_info.attacker_id <;> simp [hnb]

/-- C4 witness: attacker id 0 at (0,0), not an ambush: the tile becomes
`Excellent` and did not decrease, on a FoW owned by a different player
than the attacker's. -/
theorem apply_event_attack_spec_witness :
    (Fow.apply_event demoPrims excellentFow demoState
        (CoreEvent.AttackUnit ⟨some 0, false⟩)).map.tile ⟨0, 0⟩ =
      TileVisibility.Excellent ∧
    TileVisibility.ble (excellentFow.map.tile ⟨0, 0⟩)
      ((Fow.apply_event demoPrims excellentFow demoState
          (CoreEvent.AttackUnit ⟨some 0, false⟩)).map.tile ⟨0, 0⟩) = true := by
  have h := (apply_event_attack_spec demoPrims excellentFow demoState
    ⟨some 0, false⟩).1 0 rfl rfl
  exact ⟨h.2.1, h.2.2⟩

/-- C7: `fov_unit` never decreases the stored visibility at any position,
and each position visited by the selected primitive is updated to the join
of its old value with `calc_visibility` there. -/
theorem fov_unit_monotone_spec (prims : FovPrims) (db : Db)
    (state : GameState) (m : Map TileVisibility) (u : Unit)
    (_ha : u.is_alive = true) (p : MapPos) :
    TileVisibility.ble (m.tiles p)
      ((fov_unit prims db state m u).tiles p) = true ∧
    (p ∈ visited_positions prims db state u →
      (fov_unit prims db state m u).tiles p =
      TileVisibility.join (m.tiles p)
        (calc_visibility prims state (db.unit_type u.type_id)
          u.pos.map_pos p)) := by
  constructor
  · rw [fov_unit_tiles]
    exact TileVisibility.ble_join_left _ _
  · intro hp
    rw [fov_unit_tiles]
    unfold unit_contrib
    rw [if_pos hp]

/-- C7 witness: at the visited position (0,0) the tile becomes the join of
its old value and the calculated visibility, and did not decrease. -/
theorem fov_unit_monotone_spec_witness :
    TileVisibility.ble (demoFow.map.tiles ⟨0, 0⟩)
      ((fov_unit demoPrims demoDb demoState demoFow.map demoVehicle).tiles
        ⟨0, 0⟩) = true ∧
    (fov_unit demoPrims demoDb demoState demoFow.map demoVehicle).tiles
        ⟨0, 0⟩ =
      TileVisibility.join (demoFow.map.tiles ⟨0, 0⟩)
        (calc_visibility demoPrims demoState
          (demoDb.unit_type demoVehicle.type_id)
          demoVehicle.pos.map_pos ⟨0, 0⟩) := by
  have h := fov_unit_monotone_spec demoPrims demoDb demoState demoFow.map
    demoVehicle rfl ⟨0, 0⟩
  exact ⟨h.1, h.2 (by decide)⟩

/-- C8: running `fov_unit` twice in succession for the same alive unit on
the same state yields exactly the map of a single run. -/
theorem fov_unit_idem_spec (prims : FovPrims) (db : Db) (state : GameState)
    (m : Map TileVisibility) (u : Unit) (_ha : u.is_alive = true) :
    fov_unit prims db state (fov_unit prims db state m u) u =
    fov_unit prims db state m u := by
  apply Map.eq_of_size_tiles
  · rw [fov_unit_size]
  · intro p
    simp only [fov_unit_tiles]
    rw [TileVisibility.join_join_self]

/-- C8 witness: the double sweep of the demo vehicle equals the single
sweep. -/
theorem fov_unit_idem_spec_witness :
    fov_unit demoPrims demoDb demoState
      (fov_unit demoPrims demoDb demoState demoFow.map demoVehicle)
      demoVehicle =
    fov_unit demoPrims demoDb demoState demoFow.map demoVehicle :=
  fov_unit_idem_spec demoPrims demoDb demoState demoFow.map demoVehicle rfl

/-- C9: `fov_unit` modifies no position outside the visited set of the
selected FoV primitive: any other tile keeps exactly its prior value. -/
theorem fov_unit_frame_spec (prims : FovPrims) (db : Db) (state : GameState)
    (m : Map TileVisibility) (u : Unit) (p : MapPos)
    (_ha : u.is_alive = true)
    (hp : p ∉ visited_positions prims db state u) :
    (fov_unit prims db state m u).tiles p = m.tiles p := by
  rw [fov_unit_tiles]
  unfold unit_contrib
  rw [if_neg hp, TileVisibility.join_no_right]

/-- C9 witness: (9,9) is not visited by the demo primitive from (0,0), so
its tile is untouched. -/
theorem fov_unit_frame_spec_witness :
    (fov_unit demoPrims demoDb demoState demoFowNormal.map demoVehicle).tiles
      ⟨9, 9⟩ = demoFowNormal.map.tiles ⟨9, 9⟩ :=
  fov_unit_frame_spec demoPrims demoDb demoState demoFowNormal.map
    demoVehicle ⟨9, 9⟩ rfl (by decide)

/-- C6: an `EndTurn` event naming the owning player performs the full
reset — clear to `No`, then sweep exactly the alive units of the owning
player — so applying it twice equals applying it once, and the resulting
in-bounds tiles are a function of the state, the player and the database
alone (overlays and stale contributions in the prior map are discarded). -/
theorem apply_event_end_turn_spec (prims : FovPrims) (state : GameState)
    (old_id new_id : Nat) (fow fow2 : Fow)
    (hp : fow.player_id = new_id) (hp2 : fow2.player_id = new_id)
    (hdb : fow2.db = fow.db) (hsz : fow2.map.size = fow.map.size) :
    Fow.apply_event prims fow state (CoreEvent.EndTurn old_id new_id) =
      Fow.reset prims fow state ∧
    Fow.apply_event prims
      (Fow.apply_event prims fow state (CoreEvent.EndTurn old_id new_id))
      state (CoreEvent.EndTurn old_id new_id) =
      Fow.apply_event prims fow state (CoreEvent.EndTurn old_id new_id) ∧
    (∀ p, inBounds fow.map.size p = true →
      (Fow.apply_event prims fow2 state
        (CoreEvent.EndTurn old_id new_id)).map.tiles p =
      (Fow.apply_event prims fow state
        (CoreEvent.EndTurn old_id new_id)).map.tiles p) := by
  have he : Fow.apply_event prims fow state (CoreEvent.EndTurn old_id new_id) =
      Fow.reset prims fow state := by
    simp only [Fow.apply_event]
    simp [hp]
  have he2 : Fow.apply_event prims fow2 state
      (CoreEvent.EndTurn old_id new_id) = Fow.reset prims fow2 state := by
    simp only [Fow.apply_event]
    simp [hp2]
  have hres : (Fow.reset prims fow state).player_id = new_id := hp
  have he3 : Fow.apply_event prims (Fow.reset prims fow state) state
      (CoreEvent.EndTurn old_id new_id) =
      Fow.reset prims (Fow.reset prims fow state) state := by
    simp only [Fow.apply_event]
    simp [hres]
  have hidem : Fow.reset prims (Fow.reset prims fow state) state =
      Fow.reset prims fow state := by
    apply Fow.eq_of_fields
    · apply Map.eq_of_size_tiles
      · rw [reset_size, reset_size]
      · intro p
        rw [reset_tiles prims (Fow.reset prims fow state) state p,
          reset_size, reset_player_id, reset_db,
          reset_tiles prims fow state p]
        by_cases hm : p ∈ getIterList fow.map.size
        · rw [if_pos hm, if_pos hm]
        · rw [if_neg hm, if_neg hm, TileVisibility.join_join_self]
    · rfl
    · rfl
  refine ⟨he, ?_, ?_⟩
  · rw [he, he3, hidem]
  · intro p hin
    have hm := mem_getIterList_of_inBounds fow.map.size p hin
    rw [he, he2, reset_tiles prims fow2 state p, reset_tiles prims fow state p,
      hdb, hp2, hp, hsz, if_pos hm, if_pos hm]

/-- C6 witness: the reset after `EndTurn` to player 0, applied to two FoWs
with different prior maps, agrees at (2,0); the event equals the reset. -/
theorem apply_event_end_turn_spec_witness :
    Fow.apply_event demoPrims demoFow demoState (CoreEvent.EndTurn 1 0) =
      Fow.reset demoPrims demoFow demoState ∧
    (Fow.apply_event demoPrims demoFowNormal demoState
        (CoreEvent.EndTurn 1 0)).map.tiles ⟨2, 0⟩ =
      (Fow.apply_event demoPrims demoFow demoState
        (CoreEvent.EndTurn 1 0)).map.tiles ⟨2, 0⟩ := by
  have h := apply_event_end_turn_spec demoPrims demoState 1 0 demoFow
    demoFowNormal rfl rfl rfl rfl
  exact ⟨h.1, h.2.2 ⟨2, 0⟩ (by decide)⟩

end Zoc
